import Mathlib

/-!
# Verification of imv (single-file image viewer)

Shallow embedding of `src/main.c` (the only source file of the repository)
together with models of the collaborators it calls.  The navigator, viewport
and image modules (`navigator.c`, `viewport.c`, `image.c`) are not part of the
source tree given, only their callers in `main.c` are; those operations are
modelled from the specification (sections 3, 4.1, 4.2, 4.3) and every such
definition is marked `Modelled from the spec:` in its doc comment.
All definitions that embed `main.c` itself cite the corresponding lines.
-/

namespace Imv

/-! ## Navigator (spec section 4.1; `navigator.c` is not in src/) -/

/-- Modelled from the spec: `struct imv_navigator` — an ordered, deduplicated
list of paths, a current-index cursor (`cur_path` in `main.c`), and an
edge-triggered `changed` flag.  `main.c` also reads `nav.num_paths`, which is
`paths.length` here. -/
structure Navigator where
  paths : List String
  cur_path : Nat
  changed : Bool
  deriving Repr, DecidableEq

/-- Modelled from the spec: a fresh navigator is empty with a cleared flag. -/
def imv_init_navigator : Navigator := ⟨[], 0, false⟩

/-- Modelled from the spec: `add_path(p)` appends `p` if not already present;
if this is the first path added, sets `current_index` to 0 and marks
`changed`.  Duplicate suppression compares paths as opaque strings. -/
def imv_navigator_add_path (nav : Navigator) (p : String) : Navigator :=
  if p ∈ nav.paths then nav
  else if nav.paths.isEmpty then
    { nav with paths := [p], cur_path := 0, changed := true }
  else
    { nav with paths := nav.paths ++ [p] }

/-- Modelled from the spec: the filesystem collaborator of section 6, as a
finite tree so that `is_directory` / `list_entries` are total.  `skipped`
stands for an entry that is neither file nor directory, or is unreadable
(`TraversalSkip`): it is silently omitted. -/
inductive FS where
  | file : FS
  | skipped : FS
  | dir : List (String × FS) → FS

mutual
/-- Modelled from the spec: the recursive traversal of `add_path_recursive`
applied to one filesystem node reached at `path`: a plain file behaves as
`add_path`; a directory enumerates its entries recursively; other entries are
silently skipped. -/
def addPathRecNode (nav : Navigator) (path : String) : FS → Navigator
  | .file => imv_navigator_add_path nav path
  | .skipped => nav
  | .dir entries => addPathRecEntries nav path entries

/-- Modelled from the spec: traversal of a directory's entry list; each entry
`name` is reached at `path ++ "/" ++ name`. -/
def addPathRecEntries (nav : Navigator) (path : String) : List (String × FS) → Navigator
  | [] => nav
  | (name, node) :: rest =>
      addPathRecEntries (addPathRecNode nav (path ++ "/" ++ name) node) path rest
end

/-- Modelled from the spec: `add_path_recursive(p)` looks `p` up in the
filesystem collaborator `fs` and traverses from there. -/
def imv_navigator_add_path_recursive (fs : String → FS) (nav : Navigator)
    (p : String) : Navigator :=
  addPathRecNode nav p (fs p)

/-- Modelled from the spec: `get_current_path()` returns the path at
`current_index`, or none if the list is empty (the sentinel state; in C a
NULL pointer). -/
def imv_navigator_get_current_path (nav : Navigator) : Option String :=
  nav.paths.get? nav.cur_path

/-- Modelled from the spec: `next_path()` advances the cursor by 1, wrapping
to 0 past the end; no-op on an empty list; marks `changed` on success. -/
def imv_navigator_next_path (nav : Navigator) : Navigator :=
  if nav.paths.isEmpty then nav
  else { nav with cur_path := (nav.cur_path + 1) % nav.paths.length, changed := true }

/-- Modelled from the spec: `prev_path()` is symmetric to `next_path`,
wrapping to the last index. -/
def imv_navigator_prev_path (nav : Navigator) : Navigator :=
  if nav.paths.isEmpty then nav
  else { nav with
         cur_path := (nav.cur_path + nav.paths.length - 1) % nav.paths.length,
         changed := true }

/-- Modelled from the spec: `set_path(n)` sets the cursor to `n` clamped into
`[0, len)`; marks `changed`.  On an empty list the cursor is the sentinel. -/
def imv_navigator_set_path (nav : Navigator) (n : Nat) : Navigator :=
  if nav.paths.isEmpty then { nav with cur_path := 0, changed := true }
  else { nav with cur_path := min n (nav.paths.length - 1), changed := true }

/-- Modelled from the spec: `remove_current_path()` deletes the entry at the
cursor.  If the list becomes empty the cursor becomes the sentinel; otherwise
it stays at the same numeric index (now naming the following element) unless
out of range, in which case it wraps to 0.  Marks `changed`. -/
def imv_navigator_remove_current_path (nav : Navigator) : Navigator :=
  if nav.paths.isEmpty then nav
  else
    let rest := nav.paths.eraseIdx nav.cur_path
    if rest.isEmpty then { paths := [], cur_path := 0, changed := true }
    else { paths := rest,
           cur_path := if nav.cur_path < rest.length then nav.cur_path else 0,
           changed := true }

/-- Modelled from the spec: `has_changed()` returns and clears the
edge-triggered `changed` flag (consume-once). -/
def imv_navigator_has_changed (nav : Navigator) : Bool × Navigator :=
  (nav.changed, { nav with changed := false })

/-! ## AnimatedImage (spec section 4.2; `image.c` is not in src/) -/

/-- Modelled from the spec: one decoded frame, a bitmap (only width/height
are consumed by the core) with a per-frame duration. -/
structure Frame where
  width : Nat
  height : Nat
  duration : ℚ
  deriving Repr, DecidableEq

/-- Modelled from the spec: the decoder collaborator of section 6:
`decode(path) -> Result<sequence of (bitmap, duration), DecodeError>`, with
the success case producing one or more frames (head and tail here). -/
structure Env where
  decode : String → Option (Frame × List Frame)

/-- Modelled from the spec: `struct imv_image` — decoded frames, playback
position, elapsed-time accumulator, displayed dimensions (`img.width`,
`img.height` in `main.c`) and the edge-triggered `changed` flag. -/
structure Image where
  frames : List Frame
  frame_index : Nat
  frame_time_accum : ℚ
  width : Nat
  height : Nat
  changed : Bool
  deriving Repr, DecidableEq

/-- Modelled from the spec: a fresh image holds no frames. -/
def imv_init_image : Image := ⟨[], 0, 0, 0, 0, false⟩

/-- Modelled from the spec: `load(path)` invokes the decoder; on failure it
leaves prior state untouched and signals the error (in C a nonzero return,
`true` = success here); on success it replaces the frames, resets
`frame_index` and `frame_time_accum`, updates dimensions and sets
`changed`. -/
def imv_image_load (env : Env) (img : Image) (path : String) : Image × Bool :=
  match env.decode path with
  | none => (img, false)
  | some (f, fs) =>
      ({ frames := f :: fs, frame_index := 0, frame_time_accum := 0,
         width := f.width, height := f.height, changed := true }, true)

/-- Modelled from the spec: `load_next_frame()` advances `frame_index` by one
(wrapping) and sets `changed`; no-op with no frames. -/
def imv_image_load_next_frame (img : Image) : Image :=
  if img.frames.isEmpty then img
  else { img with
         frame_index := (img.frame_index + 1) % img.frames.length,
         changed := true }

/-- Modelled from the spec: the catch-up loop of `play(dt)`: while the
accumulator exceeds the current frame's duration, subtract that duration and
advance `frame_index` (wrapping), each advance setting `changed`.  The source
loop is unbounded (and would diverge on non-positive durations); the fuel
argument bounds the number of advances in the model and is chosen large
enough for every terminating run. -/
def playCatchUp (frames : List Frame) : Nat → Nat → ℚ → Bool → Nat × ℚ × Bool
  | 0, idx, accum, chg => (idx, accum, chg)
  | fuel + 1, idx, accum, chg =>
      match frames.get? idx with
      | none => (idx, accum, chg)
      | some f =>
          if f.duration < accum then
            playCatchUp frames fuel ((idx + 1) % frames.length) (accum - f.duration) true
          else (idx, accum, chg)

/-- Modelled from the spec: `play(dt)` accumulates `dt` into
`frame_time_accum`, then runs the catch-up loop, handling a `dt` spanning
multiple frame durations in one call. -/
def imv_image_play (img : Image) (dt : ℚ) : Image :=
  let accum := img.frame_time_accum + dt
  let fuel := ((accum.num.natAbs + 1) * (img.frames.length + 1) * (accum.den + 1))
  let r := playCatchUp img.frames fuel img.frame_index accum img.changed
  { img with frame_index := r.1, frame_time_accum := r.2.1, changed := r.2.2 }

/-- Modelled from the spec: `has_changed()` returns and clears the
edge-triggered flag. -/
def imv_image_has_changed (img : Image) : Bool × Image :=
  (img.changed, { img with changed := false })

/-! ## Viewport (spec section 4.3; `viewport.c` is not in src/) -/

/-- Modelled from the spec: `struct imv_viewport` — window size, pan offset
(`view.x`, `view.y` in `main.c`), scale, and the `playing` / `fullscreen` /
`redraw` flags.  `titles` records the sequence of titles handed to the window
collaborator (`set_title` side effects), latest last. -/
structure Viewport where
  width : Nat
  height : Nat
  x : ℚ
  y : ℚ
  scale : ℚ
  playing : Bool
  fullscreen : Bool
  redraw : Bool
  titles : List String
  deriving Repr, DecidableEq

/-- Modelled from the spec: initial viewport over a fresh window (main.c
creates it at 1280x720).  Playback is enabled by default (toggling `playing`
off is the space key's job); the transform starts at the identity. -/
def imv_init_viewport (w h : Nat) : Viewport :=
  { width := w, height := h, x := 0, y := 0, scale := 1,
    playing := true, fullscreen := false, redraw := true, titles := [] }

/-- Modelled from the spec: `center(image_dims)` recomputes `offset` so the
already-scaled image is centered in the window without changing `scale`. -/
def imv_viewport_center (view : Viewport) (img : Image) : Viewport :=
  { view with
    x := ((view.width : ℚ) - (img.width : ℚ) * view.scale) / 2,
    y := ((view.height : ℚ) - (img.height : ℚ) * view.scale) / 2 }

/-- Modelled from the spec: `scale_to_window` sets
`scale = min(window_w/img_w, window_h/img_h)` so the image exactly fits
preserving aspect ratio, recenters, and sets `redraw_needed`. -/
def imv_viewport_scale_to_window (view : Viewport) (img : Image) : Viewport :=
  let fitted := { view with
    scale := min ((view.width : ℚ) / (img.width : ℚ))
                 ((view.height : ℚ) / (img.height : ℚ)) }
  { imv_viewport_center fitted img with redraw := true }

/-- Modelled from the spec: `scale_to_actual` sets `scale = 1`, recenters,
and sets `redraw_needed`. -/
def imv_viewport_scale_to_actual (view : Viewport) (img : Image) : Viewport :=
  { imv_viewport_center { view with scale := 1 } img with redraw := true }

/-- Modelled from the spec: `move(dx, dy)` adds `(dx, dy)` to `offset`
directly (pan) and sets `redraw_needed`. -/
def imv_viewport_move (view : Viewport) (dx dy : ℤ) : Viewport :=
  { view with x := view.x + dx, y := view.y + dy, redraw := true }

/-- Modelled from the spec: zoom source selector (`KBD` / `MOUSE` in
`main.c`). -/
inductive ZoomSource where
  | KBD : ZoomSource
  | MOUSE : ZoomSource
  deriving Repr, DecidableEq

/-- Modelled from the spec: `zoom(source, amount)` increments `scale` by a
step derived from `amount` (keyboard zoom uses a fixed step, wheel zoom uses
the wheel delta directly), clamped to a positive minimum, and recomputes
`offset` so the anchor point — the viewport center for keyboard zoom, the
mouse position (queried from the window collaborator, passed here
explicitly) for wheel zoom — stays visually fixed.  Sets `redraw_needed`. -/
def imv_viewport_zoom (view : Viewport) (src : ZoomSource) (amount : ℤ)
    (mouse : ℤ × ℤ) : Viewport :=
  let step : ℚ := match src with
    | .KBD => (amount : ℚ) * (1 / 10)
    | .MOUSE => (amount : ℚ)
  let scale1 := max (1 / 100) (view.scale + step)
  let anchor : ℚ × ℚ := match src with
    | .KBD => ((view.width : ℚ) / 2, (view.height : ℚ) / 2)
    | .MOUSE => ((mouse.1 : ℚ), (mouse.2 : ℚ))
  { view with
    scale := scale1,
    x := anchor.1 - (anchor.1 - view.x) * scale1 / view.scale,
    y := anchor.2 - (anchor.2 - view.y) * scale1 / view.scale,
    redraw := true }

/-- Modelled from the spec: `updated(image_dims)` refreshes `window_size`
from the collaborator (the new size is passed explicitly), re-centers without
rescaling, and sets `redraw_needed`. -/
def imv_viewport_updated (view : Viewport) (img : Image) (w h : Nat) : Viewport :=
  { imv_viewport_center { view with width := w, height := h } img with redraw := true }

/-- Modelled from the spec: `toggle_fullscreen` flips the flag (and instructs
the window collaborator); no change to `scale` / `offset`. -/
def imv_viewport_toggle_fullscreen (view : Viewport) : Viewport :=
  { view with fullscreen := !view.fullscreen }

/-- Modelled from the spec: `toggle_playing` flips `playing` (in C it also
receives the image, which it only inspects). -/
def imv_viewport_toggle_playing (view : Viewport) (_img : Image) : Viewport :=
  { view with playing := !view.playing }

/-- Modelled from the spec: `set_redraw` sets `redraw_needed`. -/
def imv_viewport_set_redraw (view : Viewport) : Viewport :=
  { view with redraw := true }

/-- Modelled from the spec: `set_title` hands the string to the window
collaborator; the model records the sequence of titles sent. -/
def imv_viewport_set_title (view : Viewport) (t : String) : Viewport :=
  { view with titles := view.titles ++ [t] }

/-- The current window title: the last one set. -/
def Viewport.title (view : Viewport) : Option String :=
  view.titles.getLast?

/-! ## Title strings built by `main.c` -/

/-- Title format of `main.c` line 273: `snprintf(title, 256, "imv - [%i/%i] [LOADING] %s",
nav.cur_path + 1, nav.num_paths, current_path)`; `snprintf` writes at most
255 characters. -/
def loadingTitle (pos total : Nat) (path : String) : String :=
  ("imv - [" ++ toString pos ++ "/" ++ toString total ++ "] [LOADING] " ++ path).take 255

/-- Title format of `main.c` line 285: `snprintf(title, 256, "imv - [%i/%i] [%ix%i] %s", ...)`
with the loaded image's width and height. -/
def sizeTitle (pos total w h : Nat) (path : String) : String :=
  ("imv - [" ++ toString pos ++ "/" ++ toString total ++ "] [" ++ toString w ++
    "x" ++ toString h ++ "] " ++ path).take 255

/-! ## Command-line parsing (`parse_args`, `main.c` lines 94-127)

`getopt` is a libc collaborator: it scans `argv` with the option string
`"firahn:"` and yields, one at a time, a recognised option character (with
its argument for `n:`) or `'?'` with `optopt` set for an unrecognised flag.
The token stream it produces is the input here; the `switch` over it is
`parse_args`'s own code. -/

/-- One result of the libc `getopt` collaborator under `"firahn:"`. -/
inductive Opt where
  | f : Opt
  | i : Opt
  | r : Opt
  | a : Opt
  | h : Opt
  | n : String → Opt
  | unknown : Char → Opt
  deriving Repr, DecidableEq

/-- The global option struct `g_options` of `main.c` (line 31), without the
background-colour fields, which no reachable code sets (`solid_bg` stays 0).
`stdinMode` is the field the source calls `stdin`. -/
structure Options where
  fullscreen : Bool
  stdinMode : Bool
  recursive : Bool
  actual : Bool
  start_at : Nat
  deriving Repr, DecidableEq

/-- Initial options: every field of `g_options` starts at zero (`main.c` line 41). -/
def defaultOptions : Options :=
  { fullscreen := false, stdinMode := false, recursive := false,
    actual := false, start_at := 0 }

/-- Digit value of a character in a given base, if valid. -/
def digitInBase (base : Nat) (c : Char) : Option Nat :=
  let v :=
    if '0' ≤ c ∧ c ≤ '9' then some (c.toNat - '0'.toNat)
    else if 'a' ≤ c ∧ c ≤ 'z' then some (c.toNat - 'a'.toNat + 10)
    else if 'A' ≤ c ∧ c ≤ 'Z' then some (c.toNat - 'A'.toNat + 10)
    else none
  match v with
  | some d => if d < base then some d else none
  | none => none

/-- Consume leading digits of `base`, returning the accumulated value, how
many characters were consumed, and the rest. -/
def takeDigits (base : Nat) : List Char → Nat → Nat → Nat × Nat × List Char
  | [], acc, count => (acc, count, [])
  | c :: cs, acc, count =>
      match digitInBase base c with
      | some d => takeDigits base cs (acc * base + d) (count + 1)
      | none => (acc, count, c :: cs)

/-- libc `strtol(nptr, &end, 0)` (a collaborator of `parse_args`): skips
whitespace, reads an optional sign, detects the base from a `0x`/`0` prefix,
consumes digits, and reports the value plus the suffix starting at `end`.
If no digits are consumed, the value is 0 and `end` is `nptr` itself; a value
outside the `long` range is clamped to `LONG_MIN` / `LONG_MAX` (64-bit
`long` on the target toolchain). -/
def strtol (s : String) : ℤ × String :=
  let cs := s.toList.dropWhile (fun c => c.isWhitespace)
  let signAndRest : ℤ × List Char :=
    match cs with
    | '-' :: rest => (-1, rest)
    | '+' :: rest => (1, rest)
    | rest => (1, rest)
  let sign := signAndRest.1
  let body := signAndRest.2
  let parsed : Nat × Nat × List Char :=
    match body with
    | '0' :: x :: rest =>
        if (x = 'x' ∨ x = 'X') ∧ (digitInBase 16 (rest.headD '0')).isSome then
          takeDigits 16 rest 0 0
        else
          -- octal: the leading '0' itself is a consumed digit
          takeDigits 8 ('0' :: x :: rest) 0 0
    | '0' :: rest => takeDigits 8 ('0' :: rest) 0 0
    | rest => takeDigits 10 rest 0 0
  if parsed.2.1 = 0 then (0, s)
  else (max (-9223372036854775808) (min 9223372036854775807 (sign * (parsed.1 : ℤ))),
        String.mk parsed.2.2)

/-- The implicit conversion performed by the assignment at `main.c` line 115
(`int n` receiving `strtol`'s `long`): on the target toolchain it truncates
to the low 32 bits, two's complement, yielding a value in
`[-2^31, 2^31)`. -/
def longToInt (x : ℤ) : ℤ :=
  (x + 2147483648) % 4294967296 - 2147483648

/-- Outcome of `parse_args`: either the process exits (`'h'` prints usage and
exits 0; an unknown flag prints a diagnostic and exits 1), or parsing
finishes with the final options and the warnings printed to stderr. -/
inductive ParseOut where
  | exit : Nat → ParseOut
  | done : Options → List String → ParseOut
  deriving Repr, DecidableEq

/-- The option switch `parse_args` (`main.c` lines 94-127): the `switch` over the `getopt`
token stream.  `-f`, `-i`, `-r`, `-a` set their flags (`-i` also warns that
it is deprecated); `-h` prints usage and exits 0; `-n NUM` runs `strtol`,
narrows the `long` result into `int n` (`longToInt`, line 115) and accepts
only a fully-consumed argument whose narrowed value is positive, storing
`n - 1`, otherwise it warns and leaves the option ignored; an unrecognised
flag prints `Unknown argument` and exits 1. -/
def parse_args (opts : Options) (warnings : List String) : List Opt → ParseOut
  | [] => .done opts warnings
  | .f :: rest => parse_args { opts with fullscreen := true } warnings rest
  | .i :: rest =>
      parse_args { opts with stdinMode := true }
        (warnings ++ ["Warning: '-i' is deprecated. Just use '-' instead."]) rest
  | .r :: rest => parse_args { opts with recursive := true } warnings rest
  | .a :: rest => parse_args { opts with actual := true } warnings rest
  | .h :: _ => .exit 0
  | .n arg :: rest =>
      let r := strtol arg
      let n := longToInt r.1
      if r.2 ≠ "" ∨ n ≤ 0 then
        parse_args opts (warnings ++ ["Warning: wrong value for '-n'."]) rest
      else
        parse_args { opts with start_at := (n - 1).toNat } warnings rest
  | .unknown _ :: _ => .exit 1

/-! ## Startup: gathering paths (`main.c` lines 129-173, 215) -/

/-- One step of the positional-argument loop (`main.c` lines 141-151): the
argument `"-"` only turns on stdin mode; otherwise the path is added,
recursively when `-r` was given. -/
def collectArg (fs : String → FS) (st : Options × Navigator) (arg : String) :
    Options × Navigator :=
  if arg = "-" then ({ st.1 with stdinMode := true }, st.2)
  else if st.1.recursive then (st.1, imv_navigator_add_path_recursive fs st.2 arg)
  else (st.1, imv_navigator_add_path st.2 arg)

/-- The positional-argument loop over `argv[optind..argc)`. -/
def collectArgs (fs : String → FS) (st : Options × Navigator)
    (args : List String) : Options × Navigator :=
  args.foldl (collectArg fs) st

/-- One iteration of the stdin loop (`main.c` lines 155-167) on one `fgets`
chunk: strip a single trailing newline, skip the line if empty, otherwise
add the path (recursively under `-r`). -/
def processChunk (fs : String → FS) (recursive : Bool) (nav : Navigator)
    (buf : String) : Navigator :=
  let line := if buf.data.getLast? = some '\n' then String.mk buf.data.dropLast else buf
  if 0 < line.length then
    if recursive then imv_navigator_add_path_recursive fs nav line
    else imv_navigator_add_path nav line
  else nav

/-- The stdin loop (`main.c` lines 153-168) over the sequence of chunks the
libc `fgets` collaborator returns (each nonempty, newline-terminated except
possibly the last). -/
def readStdin (fs : String → FS) (recursive : Bool) (nav : Navigator)
    (chunks : List String) : Navigator :=
  chunks.foldl (processChunk fs recursive) nav

/-- A process exit: status code and the diagnostic printed. -/
structure ExitMsg where
  code : Nat
  msg : String
  deriving Repr, DecidableEq

/-- Startup (`main.c` lines 129-173 and 215): usage-and-exit when no
arguments at all were given (`argc < 2`); `parse_args`; the positional
loop; the stdin loop when stdin mode is on; exit 1 with
`No input files. Exiting.` when no current path exists; otherwise jump to
`start_at` via `set_path` (line 215, after window creation) and enter the
control loop with the resulting options and navigator. -/
def startup (fs : String → FS) (toks : List Opt) (positional : List String)
    (chunks : List String) : Except ExitMsg (Options × Navigator × List String) :=
  if toks.isEmpty ∧ positional.isEmpty then
    .error ⟨1, "usage"⟩
  else
    match parse_args defaultOptions [] toks with
    | .exit code => .error ⟨code, "exit during argument parsing"⟩
    | .done opts warns =>
      let st := collectArgs fs (opts, imv_init_navigator) positional
      let nav2 := if st.1.stdinMode then readStdin fs st.1.recursive st.2 chunks
                  else st.2
      match imv_navigator_get_current_path nav2 with
      | none => .error ⟨1, "No input files. Exiting."⟩
      | some _ => .ok (st.1, imv_navigator_set_path nav2 st.1.start_at, warns)

/-! ## The change-drain loop (`main.c` lines 270-294) -/

/-- The body of `while(imv_navigator_has_changed(&nav))` (`main.c` lines
271-293), run on the navigator with its flag already consumed.  In order:
read the current path; set the `[LOADING]` title (glibc `snprintf` renders a
NULL `%s` argument as `(null)`); exit 1 with `No input files left. Exiting.`
when there is no current path; attempt `imv_image_load`; on failure remove
the current path, on success set the `WxH` title and `scale_to_window`;
finally apply `scale_to_actual` when `-a` was given.  The boolean reports
whether the load succeeded. -/
def drainStep (env : Env) (opts : Options) (nav1 : Navigator) (view : Viewport)
    (img : Image) : Except ExitMsg ((Navigator × Viewport × Image) × Bool) :=
  let current := imv_navigator_get_current_path nav1
  let view1 := imv_viewport_set_title view
    (loadingTitle (nav1.cur_path + 1) nav1.paths.length (current.getD "(null)"))
  match current with
  | none => .error ⟨1, "No input files left. Exiting."⟩
  | some path =>
    let r := imv_image_load env img path
    if r.2 then
      let view2 := imv_viewport_set_title view1
        (sizeTitle (nav1.cur_path + 1) nav1.paths.length r.1.width r.1.height path)
      let view3 := imv_viewport_scale_to_window view2 r.1
      let view4 := if opts.actual then imv_viewport_scale_to_actual view3 r.1 else view3
      .ok ((nav1, view4, r.1), true)
    else
      let nav2 := imv_navigator_remove_current_path nav1
      let view2 := if opts.actual then imv_viewport_scale_to_actual view1 r.1 else view1
      .ok ((nav2, view2, r.1), false)

/-- Termination measure for the drain loop: twice the path count plus one for
a raised `changed` flag. -/
def navMeasure (nav : Navigator) : Nat :=
  2 * nav.paths.length + (if nav.changed then 1 else 0)

theorem get_current_lt {nav : Navigator} {p : String}
    (h : imv_navigator_get_current_path nav = some p) :
    nav.cur_path < nav.paths.length := by
  have := List.get?_eq_some.mp h
  exact this.choose

theorem remove_paths_length {nav : Navigator}
    (h : nav.cur_path < nav.paths.length) :
    (imv_navigator_remove_current_path nav).paths.length = nav.paths.length - 1 := by
  unfold imv_navigator_remove_current_path
  have hne : nav.paths.isEmpty = false := by
    cases hp : nav.paths with
    | nil => rw [hp] at h; simp at h
    | cons a l => simp [hp]
  simp only [hne, Bool.false_eq_true, if_false]
  have hlen : (nav.paths.eraseIdx nav.cur_path).length = nav.paths.length - 1 :=
    List.length_eraseIdx_of_lt h
  by_cases he : (nav.paths.eraseIdx nav.cur_path).isEmpty
  · rw [List.isEmpty_iff] at he
    rw [he] at hlen
    simp only [List.length_nil] at hlen
    simp [he, ← hlen]
  · simp [he, hlen]

/-- A successful `drainStep` strictly shrinks the measure relative to a
navigator whose `changed` flag is raised: a successful load leaves the
consumed flag down (weight drops by one), a failed load removes a path
(weight drops by two and is re-raised). -/
theorem drainStep_measure {env : Env} {opts : Options} {nav : Navigator}
    {view : Viewport} {img : Image} {st : Navigator × Viewport × Image} {b : Bool}
    (hchg : nav.changed = true)
    (h : drainStep env opts { nav with changed := false } view img = .ok (st, b)) :
    navMeasure st.1 < navMeasure nav := by
  unfold drainStep at h
  cases hc : imv_navigator_get_current_path { nav with changed := false } with
  | none => rw [hc] at h; simp at h
  | some path =>
    rw [hc] at h
    simp only at h
    cases hr : (imv_image_load env img path).2 with
    | true =>
      rw [hr] at h
      simp only [if_true, Except.ok.injEq, Prod.mk.injEq] at h
      obtain ⟨h1, h2⟩ := h
      subst h1
      show navMeasure { nav with changed := false } < navMeasure nav
      simp [navMeasure, hchg]
    | false =>
      rw [hr] at h
      simp only [Bool.false_eq_true, if_false, Except.ok.injEq, Prod.mk.injEq] at h
      obtain ⟨h1, h2⟩ := h
      subst h1
      show navMeasure (imv_navigator_remove_current_path { nav with changed := false })
        < navMeasure nav
      have hlt : nav.cur_path < nav.paths.length := get_current_lt hc
      have hlen := @remove_paths_length { nav with changed := false } hlt
      simp only at hlen
      unfold navMeasure
      rw [hlen]
      simp only [hchg, if_true]
      have hb : (if (imv_navigator_remove_current_path
          { nav with changed := false }).changed then 1 else 0) ≤ 1 := by
        split <;> omega
      omega

/-- The drain loop itself (`main.c` line 270): repeat `drainStep` while the
navigator's consume-once `changed` flag reads true.  Terminates because each
step shrinks `navMeasure`. -/
def drainChanges (env : Env) (opts : Options) (nav : Navigator) (view : Viewport)
    (img : Image) : Except ExitMsg (Navigator × Viewport × Image) :=
  if hchg : (imv_navigator_has_changed nav).1 = true then
    match hstep : drainStep env opts (imv_navigator_has_changed nav).2 view img with
    | .error e => .error e
    | .ok (st, _) => drainChanges env opts st.1 st.2.1 st.2.2
  else
    .ok ((imv_navigator_has_changed nav).2, view, img)
  termination_by navMeasure nav
  decreasing_by
    exact drainStep_measure hchg hstep

/-! ## Event handling (`main.c` lines 219-264) -/

/-- The keys handled by the `SDL_KEYDOWN` switch (`main.c` lines 226-250).
Keys that share a case in the source share a constructor argument here by
being distinct constructors mapped to the same handler. -/
inductive Key where
  | q : Key
  | leftbracket : Key
  | left : Key
  | rightbracket : Key
  | right : Key
  | equals : Key
  | i : Key
  | up : Key
  | minus : Key
  | o : Key
  | down : Key
  | a : Key
  | r : Key
  | c : Key
  | j : Key
  | k : Key
  | h : Key
  | l : Key
  | x : Key
  | f : Key
  | period : Key
  | space : Key
  | p : Key
  deriving Repr, DecidableEq

/-- State threaded through event handling plus the `quit` flag. -/
structure LoopState where
  nav : Navigator
  view : Viewport
  img : Image
  quit : Bool
  deriving Repr, DecidableEq

/-- The `SDL_KEYDOWN` switch (`main.c` lines 226-250).  The keyboard-zoom
anchor is the window center, so the mouse position is irrelevant for key
events and `(0, 0)` is passed.  The `p` key writes to stdout only. -/
def handleKey (s : LoopState) : Key → LoopState
  | .q => { s with quit := true }
  | .leftbracket => { s with nav := imv_navigator_prev_path s.nav }
  | .left => { s with nav := imv_navigator_prev_path s.nav }
  | .rightbracket => { s with nav := imv_navigator_next_path s.nav }
  | .right => { s with nav := imv_navigator_next_path s.nav }
  | .equals => { s with view := imv_viewport_zoom s.view .KBD 1 (0, 0) }
  | .i => { s with view := imv_viewport_zoom s.view .KBD 1 (0, 0) }
  | .up => { s with view := imv_viewport_zoom s.view .KBD 1 (0, 0) }
  | .minus => { s with view := imv_viewport_zoom s.view .KBD (-1) (0, 0) }
  | .o => { s with view := imv_viewport_zoom s.view .KBD (-1) (0, 0) }
  | .down => { s with view := imv_viewport_zoom s.view .KBD (-1) (0, 0) }
  | .a => { s with view := imv_viewport_scale_to_actual s.view s.img }
  | .r => { s with view := imv_viewport_scale_to_window s.view s.img }
  | .c => { s with view := imv_viewport_center s.view s.img }
  | .j => { s with view := imv_viewport_move s.view 0 (-50) }
  | .k => { s with view := imv_viewport_move s.view 0 50 }
  | .h => { s with view := imv_viewport_move s.view 50 0 }
  | .l => { s with view := imv_viewport_move s.view (-50) 0 }
  | .x => { s with nav := imv_navigator_remove_current_path s.nav }
  | .f => { s with view := imv_viewport_toggle_fullscreen s.view }
  | .period => { s with img := imv_image_load_next_frame s.img }
  | .space => { s with view := imv_viewport_toggle_playing s.view s.img }
  | .p => s

/-- One SDL event as delivered by the `SDL_PollEvent` collaborator. -/
inductive Event where
  | quit : Event
  | keydown : Key → Event
  | mousewheel : ℤ → ℤ × ℤ → Event
  | mousemotion : Bool → ℤ → ℤ → Event
  | windowevent : Nat → Nat → Event
  deriving Repr, DecidableEq

/-- The event `switch` (`main.c` lines 221-263): quit, key dispatch, wheel
zoom (anchored at the reported mouse position), left-button drag pan, and
window-size refresh (the new size comes with the event here). -/
def handleEvent (s : LoopState) : Event → LoopState
  | .quit => { s with quit := true }
  | .keydown key => handleKey s key
  | .mousewheel y mouse => { s with view := imv_viewport_zoom s.view .MOUSE y mouse }
  | .mousemotion lmask xrel yrel =>
      if lmask then { s with view := imv_viewport_move s.view xrel yrel } else s
  | .windowevent w h => { s with view := imv_viewport_updated s.view s.img w h }

/-- The inner poll loop `while(!quit && SDL_PollEvent(&e))` (`main.c` line
220): handle queued events in order, stopping once `quit` is set. -/
def pollEvents (s : LoopState) : List Event → LoopState
  | [] => s
  | e :: rest =>
      if s.quit then s
      else pollEvents (handleEvent s e) rest

/-! ## Playback, texture upload and rendering (`main.c` lines 296-330) -/

/-- The playback block (`main.c` lines 296-301): only when `view.playing`,
sample `SDL_GetTicks()/1000.0` (two separate calls in the source: `ticks1`
feeds `cur_time` and `dt`, `ticks2` the new `last_time`), hand the measured
delta to `imv_image_play`, and record the invocation (`some dt`). -/
def playStep (view : Viewport) (img : Image) (last_time : ℚ) (ticks1 ticks2 : Nat) :
    Image × ℚ × Option ℚ :=
  if view.playing then
    let cur_time : ℚ := (ticks1 : ℚ) / 1000
    let dt := cur_time - last_time
    (imv_image_play img dt, (ticks2 : ℚ) / 1000, some dt)
  else (img, last_time, none)

/-- The texture-upload block (`main.c` lines 303-306): when the image has
changed (consume-once), upload the bitmap to the texture collaborator and
set the viewport's redraw flag. -/
def textureStep (view : Viewport) (img : Image) : Viewport × Image :=
  let hc := imv_image_has_changed img
  if hc.1 then (imv_viewport_set_redraw view, hc.2) else (view, hc.2)

/-- The render block (`main.c` lines 308-329): when `view.redraw` is set,
paint background and image, clear the flag, and present exactly one frame
(`SDL_RenderPresent`); otherwise do nothing.  The number of frames presented
is returned. -/
def renderStep (view : Viewport) : Viewport × Nat :=
  if view.redraw then ({ view with redraw := false }, 1) else (view, 0)

/-- Result of one full control-loop iteration. -/
structure IterOut where
  nav : Navigator
  view : Viewport
  img : Image
  last_time : ℚ
  playCall : Option ℚ
  presents : Nat
  quit : Bool
  deriving Repr, DecidableEq

/-- The tail of a control-loop iteration after event polling (`main.c` lines
270-330): drain navigator changes, advance playback, upload a changed frame,
render.  `playCall` records whether (and with which `dt`) `imv_image_play`
was invoked; `presents` counts frames presented. -/
def loopTail (env : Env) (opts : Options) (nav : Navigator) (view : Viewport)
    (img : Image) (last_time : ℚ) (ticks1 ticks2 : Nat) : Except ExitMsg IterOut :=
  match drainChanges env opts nav view img with
  | .error e => .error e
  | .ok (nav1, view1, img1) =>
    let ps := playStep view1 img1 last_time ticks1 ticks2
    let ts := textureStep view1 ps.1
    let rs := renderStep ts.1
    .ok { nav := nav1, view := rs.1, img := ts.2, last_time := ps.2.1,
          playCall := ps.2.2, presents := rs.2, quit := false }

/-- One full control-loop iteration (`main.c` lines 218-331): poll and handle
the queued events; if `quit` was raised, break out of the loop without
draining or painting (lines 266-268); otherwise run the iteration tail. -/
def loopIter (env : Env) (opts : Options) (events : List Event) (nav : Navigator)
    (view : Viewport) (img : Image) (last_time : ℚ) (ticks1 ticks2 : Nat) :
    Except ExitMsg IterOut :=
  let s := pollEvents ⟨nav, view, img, false⟩ events
  if s.quit then
    .ok { nav := s.nav, view := s.view, img := s.img, last_time := last_time,
          playCall := none, presents := 0, quit := true }
  else loopTail env opts s.nav s.view s.img last_time ticks1 ticks2

/-! ## Helper lemmas about the navigator and the drain loop -/

/-- Unfolding lemma for `drainChanges` with a plain (non-dependent) match,
convenient for rewriting. -/
theorem drainChanges_eq (env : Env) (opts : Options) (nav : Navigator)
    (view : Viewport) (img : Image) :
    drainChanges env opts nav view img =
      if (imv_navigator_has_changed nav).1 = true then
        match drainStep env opts (imv_navigator_has_changed nav).2 view img with
        | .error e => .error e
        | .ok (st, _) => drainChanges env opts st.1 st.2.1 st.2.2
      else .ok ((imv_navigator_has_changed nav).2, view, img) := by
  rw [drainChanges.eq_def]
  split
  next hchg =>
    split
    next e heq => rw [heq]
    next st b heq => rw [heq]
  next hchg => rfl

/-- Removal always leaves exactly the paths with the cursor's entry erased. -/
theorem remove_paths (nav : Navigator) :
    (imv_navigator_remove_current_path nav).paths = nav.paths.eraseIdx nav.cur_path := by
  unfold imv_navigator_remove_current_path
  by_cases h : nav.paths.isEmpty
  · rw [List.isEmpty_iff] at h
    simp [h]
  · simp only [h, Bool.false_eq_true, if_false]
    by_cases he : (nav.paths.eraseIdx nav.cur_path).isEmpty
    · rw [List.isEmpty_iff] at he
      simp [he]
    · simp [he]

/-- Removing while a current path exists re-raises the `changed` flag. -/
theorem remove_changed {nav : Navigator} {p : String}
    (h : imv_navigator_get_current_path nav = some p) :
    (imv_navigator_remove_current_path nav).changed = true := by
  have hlt : nav.cur_path < nav.paths.length := get_current_lt h
  have hne : nav.paths.isEmpty = false := by
    cases hp : nav.paths with
    | nil => rw [hp] at hlt; simp at hlt
    | cons a l => simp [hp]
  unfold imv_navigator_remove_current_path
  simp only [hne, Bool.false_eq_true, if_false]
  by_cases he : (nav.paths.eraseIdx nav.cur_path).isEmpty <;> simp [he]

/-- A member of a list that is gone after erasing index `i` must be the
element at index `i` (every one of its occurrences was erased, and `eraseIdx`
erases at most one position). -/
theorem mem_of_not_mem_eraseIdx {l : List String} {i : Nat} {p : String}
    (hp : p ∈ l) (hno : p ∉ l.eraseIdx i) : l.get? i = some p := by
  by_cases hi : i < l.length
  · have hsplit : l = l.take i ++ l.get ⟨i, hi⟩ :: l.drop (i + 1) := by
      conv_lhs => rw [← List.take_append_drop i l]
      rw [List.drop_eq_get_cons hi]
    have herase : l.eraseIdx i = l.take i ++ l.drop (i + 1) :=
      List.eraseIdx_eq_take_drop_succ l i
    rw [hsplit] at hp
    rcases List.mem_append.mp hp with h1 | h2
    · exact absurd (by rw [herase]; exact List.mem_append.mpr (Or.inl h1)) hno
    · rcases List.mem_cons.mp h2 with h3 | h4
      · rw [List.get?_eq_get hi, h3]
      · exact absurd (by rw [herase]; exact List.mem_append.mpr (Or.inr h4)) hno
  · have : l.eraseIdx i = l := List.eraseIdx_of_length_le (Nat.le_of_not_lt hi)
    rw [this] at hno
    exact absurd hp hno

/-- A drain-loop body run exits the process only with status 1 and the
`No input files left` diagnostic, and only because no current path exists. -/
theorem drainStep_error {env : Env} {opts : Options} {nav1 : Navigator}
    {view : Viewport} {img : Image} {e : ExitMsg}
    (h : drainStep env opts nav1 view img = .error e) :
    e = ⟨1, "No input files left. Exiting."⟩
      ∧ imv_navigator_get_current_path nav1 = none := by
  unfold drainStep at h
  cases hc : imv_navigator_get_current_path nav1 with
  | none =>
    rw [hc] at h
    simp only [Except.error.injEq] at h
    exact ⟨h.symm, rfl⟩
  | some path =>
    rw [hc] at h
    simp only at h
    cases hr : (imv_image_load env img path).2 with
    | true => rw [hr] at h; simp at h
    | false => rw [hr] at h; simp at h

/-- A successful drain-loop body run leaves the navigator untouched, and its
current path decodes. -/
theorem drainStep_ok_true {env : Env} {opts : Options} {nav1 : Navigator}
    {view : Viewport} {img : Image} {st : Navigator × Viewport × Image}
    (h : drainStep env opts nav1 view img = .ok (st, true)) :
    st.1 = nav1 ∧ ∃ path, imv_navigator_get_current_path nav1 = some path
      ∧ (env.decode path).isSome = true := by
  unfold drainStep at h
  cases hc : imv_navigator_get_current_path nav1 with
  | none => rw [hc] at h; simp at h
  | some path =>
    rw [hc] at h
    simp only at h
    cases hr : (imv_image_load env img path).2 with
    | true =>
      rw [hr] at h
      simp only [if_true, Except.ok.injEq, Prod.mk.injEq] at h
      obtain ⟨h1, h2⟩ := h
      subst h1
      refine ⟨rfl, path, rfl, ?_⟩
      unfold imv_image_load at hr
      cases hd : env.decode path with
      | none => rw [hd] at hr; simp at hr
      | some v => simp
    | false => rw [hr] at h; simp at h

/-- A failing drain-loop body run removes exactly the current path, which
does not decode. -/
theorem drainStep_ok_false {env : Env} {opts : Options} {nav1 : Navigator}
    {view : Viewport} {img : Image} {st : Navigator × Viewport × Image}
    (h : drainStep env opts nav1 view img = .ok (st, false)) :
    st.1 = imv_navigator_remove_current_path nav1
      ∧ ∃ path, imv_navigator_get_current_path nav1 = some path
      ∧ env.decode path = none := by
  unfold drainStep at h
  cases hc : imv_navigator_get_current_path nav1 with
  | none => rw [hc] at h; simp at h
  | some path =>
    rw [hc] at h
    simp only at h
    cases hr : (imv_image_load env img path).2 with
    | true => rw [hr] at h; simp at h
    | false =>
      rw [hr] at h
      simp only [Bool.false_eq_true, if_false, Except.ok.injEq, Prod.mk.injEq] at h
      obtain ⟨h1, h2⟩ := h
      subst h1
      refine ⟨rfl, path, rfl, ?_⟩
      unfold imv_image_load at hr
      cases hd : env.decode path with
      | none => rfl
      | some v => rw [hd] at hr; simp at hr

/-- One drain-loop body run never touches the `playing` flag: every viewport
update it makes (`set_title`, `scale_to_window`, `scale_to_actual`) preserves
it. -/
theorem drainStep_playing {env : Env} {opts : Options} {nav1 : Navigator}
    {view : Viewport} {img : Image} {st : Navigator × Viewport × Image} {b : Bool}
    (h : drainStep env opts nav1 view img = .ok (st, b)) :
    st.2.1.playing = view.playing := by
  unfold drainStep at h
  cases hc : imv_navigator_get_current_path nav1 with
  | none => rw [hc] at h; simp at h
  | some path =>
    rw [hc] at h
    simp only at h
    cases hr : (imv_image_load env img path).2 with
    | true =>
      rw [hr] at h
      simp only [if_true, Except.ok.injEq, Prod.mk.injEq] at h
      obtain ⟨h1, h2⟩ := h
      subst h1
      by_cases ha : opts.actual = true <;>
        simp [ha, imv_viewport_scale_to_actual, imv_viewport_scale_to_window,
          imv_viewport_center, imv_viewport_set_title]
    | false =>
      rw [hr] at h
      simp only [Bool.false_eq_true, if_false, Except.ok.injEq, Prod.mk.injEq] at h
      obtain ⟨h1, h2⟩ := h
      subst h1
      by_cases ha : opts.actual = true <;>
        simp [ha, imv_viewport_scale_to_actual, imv_viewport_center,
          imv_viewport_set_title]

/-- The drain loop as a whole preserves the `playing` flag. -/
theorem drain_preserves_playing (env : Env) (opts : Options) (nav : Navigator)
    (view : Viewport) (img : Image) :
    ∀ n2 v2 i2, drainChanges env opts nav view img = .ok (n2, v2, i2) →
      v2.playing = view.playing := by
  induction nav, view, img using drainChanges.induct env opts with
  | case1 nav view img hchg e hstep =>
      intro n2 v2 i2 h
      rw [drainChanges_eq, if_pos hchg, hstep] at h
      exact absurd h (by simp)
  | case2 nav view img hchg st b hstep ih =>
      intro n2 v2 i2 h
      rw [drainChanges_eq, if_pos hchg, hstep] at h
      have hpl := ih n2 v2 i2 h
      rw [hpl, drainStep_playing hstep]
  | case3 nav view img hchg =>
      intro n2 v2 i2 h
      rw [drainChanges_eq, if_neg hchg] at h
      simp only [Except.ok.injEq, Prod.mk.injEq] at h
      rw [← h.2.1]

/-- Indexing the empty list always yields `none`. -/
theorem get?_nil_none (n : Nat) : ([] : List String).get? n = none := by
  cases n <;> rfl

/-- Master lemma about the drain loop: when it returns to the control loop,
every path that disappeared failed to decode, the `changed` flag is fully
drained, and — when the loop was entered at all — the final current path is
one that decodes. -/
theorem drain_ok_spec (env : Env) (opts : Options) (nav : Navigator)
    (view : Viewport) (img : Image) :
    ∀ n2 v2 i2, drainChanges env opts nav view img = .ok (n2, v2, i2) →
      (∀ p, p ∈ nav.paths → p ∉ n2.paths → env.decode p = none) ∧
      n2.changed = false ∧
      (nav.changed = true → ∃ path, imv_navigator_get_current_path n2 = some path
        ∧ (env.decode path).isSome = true) := by
  induction nav, view, img using drainChanges.induct env opts with
  | case1 nav view img hchg e hstep =>
      intro n2 v2 i2 h
      rw [drainChanges_eq, if_pos hchg, hstep] at h
      exact absurd h (by simp)
  | case2 nav view img hchg st b hstep ih =>
      intro n2 v2 i2 h
      rw [drainChanges_eq, if_pos hchg, hstep] at h
      have hspec := ih n2 v2 i2 h
      cases b with
      | true =>
        obtain ⟨hst, path, hc, hdec⟩ := drainStep_ok_true hstep
        have hrec : drainChanges env opts st.1 st.2.1 st.2.2 = Except.ok (n2, v2, i2) := h
        have hflag : (imv_navigator_has_changed st.1).1 = false := by rw [hst]; rfl
        rw [drainChanges_eq, hflag] at hrec
        simp only [Bool.false_eq_true, if_false, Except.ok.injEq, Prod.mk.injEq] at hrec
        obtain ⟨hn2, hv2, hi2⟩ := hrec
        have hn2paths : n2.paths = nav.paths := by
          rw [← hn2, hst]; rfl
        have hn2cur : imv_navigator_get_current_path n2 = some path := by
          rw [← hn2, hst]
          exact hc
        refine ⟨?_, ?_, fun _ => ⟨path, hn2cur, hdec⟩⟩
        · intro p hp hnp
          rw [hn2paths] at hnp
          exact absurd hp hnp
        · rw [← hn2]; rfl
      | false =>
        obtain ⟨hst, path, hc, hdec⟩ := drainStep_ok_false hstep
        have hchg2 : st.1.changed = true := by rw [hst]; exact remove_changed hc
        refine ⟨?_, hspec.2.1, fun _ => hspec.2.2 hchg2⟩
        intro p hp hnp
        by_cases hmem : p ∈ st.1.paths
        · exact hspec.1 p hmem hnp
        · rw [hst, remove_paths] at hmem
          have hidx := mem_of_not_mem_eraseIdx (l := (imv_navigator_has_changed nav).2.paths)
            (i := (imv_navigator_has_changed nav).2.cur_path) (p := p) hp hmem
          rw [show ((imv_navigator_has_changed nav).2.paths.get?
              (imv_navigator_has_changed nav).2.cur_path)
            = imv_navigator_get_current_path (imv_navigator_has_changed nav).2 from rfl,
            hc] at hidx
          injection hidx with hpp
          rw [← hpp]
          exact hdec
  | case3 nav view img hchg =>
      intro n2 v2 i2 h
      rw [drainChanges_eq, if_neg hchg] at h
      simp only [Except.ok.injEq, Prod.mk.injEq] at h
      obtain ⟨hn2, hv2, hi2⟩ := h
      have hnavchg : nav.changed = false := by
        simpa [imv_navigator_has_changed] using hchg
      refine ⟨?_, ?_, ?_⟩
      · intro p hp hnp
        rw [← hn2] at hnp
        exact absurd hp hnp
      · rw [← hn2]; rfl
      · intro hcontra
        rw [hnavchg] at hcontra
        exact absurd hcontra (by simp)

/-- The drain loop exits the process only with status 1 and the
`No input files left` diagnostic. -/
theorem drain_error_spec (env : Env) (opts : Options) (nav : Navigator)
    (view : Viewport) (img : Image) :
    ∀ e, drainChanges env opts nav view img = .error e →
      e = ⟨1, "No input files left. Exiting."⟩ := by
  induction nav, view, img using drainChanges.induct env opts with
  | case1 nav view img hchg e0 hstep =>
      intro e h
      rw [drainChanges_eq, if_pos hchg, hstep] at h
      simp only [Except.error.injEq] at h
      rw [← h]
      exact (drainStep_error hstep).1
  | case2 nav view img hchg st b hstep ih =>
      intro e h
      rw [drainChanges_eq, if_pos hchg, hstep] at h
      exact ih e h
  | case3 nav view img hchg =>
      intro e h
      rw [drainChanges_eq, if_neg hchg] at h
      simp at h

/-- A two-path decoder environment: `"A"` fails to decode, `"B"` decodes to a
single 2000x1000 frame. -/
def envAB : Env :=
  ⟨fun p => if p = "B" then some (⟨2000, 1000, 1⟩, []) else none⟩

/-- Concrete run of the drain loop on `["A", "B"]` under `envAB`: the failing
`"A"` is dropped and `"B"` remains as the current path. -/
theorem drain_concrete_run :
    ∃ v2 i2, drainChanges envAB defaultOptions ⟨["A", "B"], 0, true⟩
      (imv_init_viewport 1280 720) imv_init_image = .ok (⟨["B"], 0, false⟩, v2, i2) :=
  ⟨_, _, by
    rw [drainChanges_eq]
    simp only [drainStep, imv_navigator_has_changed, imv_navigator_get_current_path,
      imv_image_load, envAB, imv_navigator_remove_current_path, defaultOptions]
    simp
    rw [drainChanges_eq]
    simp only [drainStep, imv_navigator_has_changed, imv_navigator_get_current_path,
      imv_image_load, envAB, imv_navigator_remove_current_path, defaultOptions]
    simp
    rw [drainChanges_eq]
    simp only [drainStep, imv_navigator_has_changed, imv_navigator_get_current_path,
      imv_image_load, envAB, imv_navigator_remove_current_path, defaultOptions]
    simp
    exact ⟨rfl, rfl⟩⟩

/-! ## Claim theorems -/

/-- C1: Whenever `imv_image_load` fails on the current path, the control
loop's drain phase removes that path and retries, draining the navigator's
`changed` flag until false, until some path loads successfully or the list is
exhausted; successfully loading paths are never removed by this loop.
Formally: when the drain loop returns, every path it dropped failed to
decode (so successfully loading paths are never removed), the `changed` flag
is fully drained, and if the loop was entered at all the final current path
decodes successfully; when the list is exhausted instead, the loop exits the
process. -/
theorem nav_drain_removes_only_failing (env : Env) (opts : Options)
    (nav : Navigator) (view : Viewport) (img : Image) :
    (∀ n2 v2 i2, drainChanges env opts nav view img = .ok (n2, v2, i2) →
      (∀ p, p ∈ nav.paths → p ∉ n2.paths → env.decode p = none) ∧
      n2.changed = false ∧
      (nav.changed = true → ∃ path, imv_navigator_get_current_path n2 = some path
        ∧ (env.decode path).isSome = true)) ∧
    (∀ e, drainChanges env opts nav view img = .error e →
      e = ⟨1, "No input files left. Exiting."⟩) :=
  ⟨drain_ok_spec env opts nav view img, drain_error_spec env opts nav view img⟩

/-- Witness for C1: on `["A", "B"]` under `envAB` the drain loop ends with a
drained flag and the dropped path `"A"` is exactly a failing one. -/
theorem nav_drain_removes_only_failing_witness :
    (match drainChanges envAB defaultOptions ⟨["A", "B"], 0, true⟩
        (imv_init_viewport 1280 720) imv_init_image with
     | .ok (n2, _, _) => n2.changed = false ∧ envAB.decode "A" = none
     | .error _ => False) := by
  obtain ⟨v2, i2, hh⟩ := drain_concrete_run
  rw [hh]
  have hs := (nav_drain_removes_only_failing envAB defaultOptions ⟨["A", "B"], 0, true⟩
    (imv_init_viewport 1280 720) imv_init_image).1 ⟨["B"], 0, false⟩ v2 i2 hh
  exact ⟨hs.2.1, hs.1 "A" (by decide) (by decide)⟩

/-- C7: end-to-end, with input paths `[A, B]` where `A` fails to decode and
`B` succeeds: startup collects both paths and positions the cursor at 0, and
the first drain of the control loop leaves the navigator with current path
`"B"` and a path list of length 1. -/
theorem startup_skips_failing_first_path :
    startup (fun _ => FS.file) [] ["A", "B"] [] =
      .ok (defaultOptions, ⟨["A", "B"], 0, true⟩, []) ∧
    (match drainChanges envAB defaultOptions ⟨["A", "B"], 0, true⟩
        (imv_init_viewport 1280 720) imv_init_image with
     | .ok (n2, _, _) =>
        imv_navigator_get_current_path n2 = some "B" ∧ n2.paths.length = 1
     | .error _ => False) := by
  refine ⟨rfl, ?_⟩
  obtain ⟨v2, i2, hh⟩ := drain_concrete_run
  rw [hh]
  exact ⟨rfl, rfl⟩

/-- After `set_path`, a navigator that had a current path still has one. -/
theorem set_path_current_isSome {nav : Navigator} {p : String}
    (h : imv_navigator_get_current_path nav = some p) (n : Nat) :
    (imv_navigator_get_current_path (imv_navigator_set_path nav n)).isSome = true := by
  have hlt := get_current_lt h
  have hne : nav.paths.isEmpty = false := by
    cases hp : nav.paths with
    | nil => rw [hp] at hlt; simp at hlt
    | cons a l => simp [hp]
  unfold imv_navigator_set_path imv_navigator_get_current_path
  simp only [hne, Bool.false_eq_true, if_false]
  have hmin : min n (nav.paths.length - 1) < nav.paths.length := by omega
  rw [List.get?_eq_get hmin]
  rfl

/-- C2: whenever no current path exists — at startup after all arguments and
stdin lines are processed, or during a session once every path has been
removed — the process prints a diagnostic and exits with a non-zero status,
and never continues the control loop in that state: startup only hands a
navigator to the loop when a current path exists. -/
theorem no_paths_exits :
    (∀ (fs : String → FS) (toks : List Opt) (positional chunks : List String)
        (opts : Options) (warns : List String),
      ¬(toks.isEmpty ∧ positional.isEmpty) →
      parse_args defaultOptions [] toks = .done opts warns →
      imv_navigator_get_current_path
        (if (collectArgs fs (opts, imv_init_navigator) positional).1.stdinMode then
          readStdin fs (collectArgs fs (opts, imv_init_navigator) positional).1.recursive
            (collectArgs fs (opts, imv_init_navigator) positional).2 chunks
         else (collectArgs fs (opts, imv_init_navigator) positional).2) = none →
      startup fs toks positional chunks = .error ⟨1, "No input files. Exiting."⟩) ∧
    (∀ (fs : String → FS) (toks : List Opt) (positional chunks : List String)
        (o : Options) (n : Navigator) (w : List String),
      startup fs toks positional chunks = .ok (o, n, w) →
      (imv_navigator_get_current_path n).isSome = true) ∧
    (∀ (env : Env) (opts : Options) (nav : Navigator) (view : Viewport) (img : Image),
      nav.paths = [] → nav.changed = true →
      drainChanges env opts nav view img = .error ⟨1, "No input files left. Exiting."⟩) := by
  refine ⟨?_, ?_, ?_⟩
  · intro fs toks positional chunks opts warns h1 hparse hget
    unfold startup
    rw [if_neg h1, hparse]
    dsimp only
    rw [hget]
  · intro fs toks positional chunks o n w h
    unfold startup at h
    split at h
    · exact absurd h (by simp)
    · split at h
      next code heq => exact absurd h (by simp)
      next opts warns heq =>
        dsimp only at h
        split at h
        next hnone => exact absurd h (by simp)
        next p hsome =>
          simp only [Except.ok.injEq, Prod.mk.injEq] at h
          rw [← h.2.1]
          exact set_path_current_isSome hsome _
  · intro env opts nav view img hpaths hchg
    have hflag : (imv_navigator_has_changed nav).1 = true := hchg
    have hcur : imv_navigator_get_current_path (imv_navigator_has_changed nav).2 = none := by
      unfold imv_navigator_get_current_path
      show (nav.paths.get? nav.cur_path) = none
      rw [hpaths]
      exact get?_nil_none _
    have hds : drainStep env opts (imv_navigator_has_changed nav).2 view img
        = .error ⟨1, "No input files left. Exiting."⟩ := by
      unfold drainStep
      rw [hcur]
    rw [drainChanges_eq, if_pos hflag, hds]

/-- Witness for C2: a run whose only positional argument is `"-"` with empty
stdin exits 1 at startup; a drained-empty navigator with a raised flag exits
1 from the session loop. -/
theorem no_paths_exits_witness :
    startup (fun _ => FS.file) [] ["-"] [] = .error ⟨1, "No input files. Exiting."⟩ ∧
    drainChanges envAB defaultOptions ⟨[], 0, true⟩ (imv_init_viewport 1280 720)
      imv_init_image = .error ⟨1, "No input files left. Exiting."⟩ := by
  constructor
  · exact no_paths_exits.1 (fun _ => FS.file) [] ["-"] [] defaultOptions []
      (by decide) rfl rfl
  · exact no_paths_exits.2.2 envAB defaultOptions ⟨[], 0, true⟩
      (imv_init_viewport 1280 720) imv_init_image rfl rfl

/-- Counterexample to C3 as stated: an unrecognised flag (`-z`) aborts the
program with exit status 1 even though a valid input path (`a.png`) exists;
`parse_args` hits the `'?'` case (`main.c` lines 122-124), which prints
`Unknown argument` and calls `exit(1)`. -/
theorem malformed_cli_counterexample :
    parse_args defaultOptions [] [Opt.unknown 'z'] = .exit 1 ∧
    startup (fun _ => FS.file) [Opt.unknown 'z'] ["a.png"] [] =
      .error ⟨1, "exit during argument parsing"⟩ :=
  ⟨rfl, rfl⟩

/-- C3 (amended): a malformed numeric argument to `-n` — one with trailing
characters, or whose value after the `strtol` long-range clamp and the `int`
narrowing of line 115 is not positive — prints a warning and the option is
ignored, parsing continuing with the remaining arguments; an unrecognised
flag, however, prints an `Unknown argument` diagnostic and exits with
status 1. -/
theorem malformed_cli_behavior :
    (∀ (opts : Options) (warns : List String) (s : String) (rest : List Opt),
      ((strtol s).2 ≠ "" ∨ longToInt (strtol s).1 ≤ 0) →
      parse_args opts warns (Opt.n s :: rest) =
        parse_args opts (warns ++ ["Warning: wrong value for '-n'."]) rest) ∧
    (∀ (opts : Options) (warns : List String) (c : Char) (rest : List Opt),
      parse_args opts warns (Opt.unknown c :: rest) = .exit 1) := by
  constructor
  · intro opts warns s rest h
    simp only [parse_args]
    rw [if_pos h]
  · intro opts warns c rest
    rfl

/-- Witness for C3 (amended): `-n abc` warns and leaves the options at their
defaults. -/
theorem malformed_cli_behavior_witness :
    parse_args defaultOptions [] [Opt.n "abc"] =
      .done defaultOptions ["Warning: wrong value for '-n'."] := by
  rw [malformed_cli_behavior.1 defaultOptions [] "abc" [] (by decide)]
  rfl

/-- Counterexample to C9 as stated: `-n 2147483648` is a numeric argument
NUM > 0 with no trailing characters, yet the program does not start at index
NUM - 1: the `long` 2147483648 narrows to `int` -2147483648 (`main.c` line
115), the `n <= 0` test fires, only a warning is printed and the start index
stays 0. -/
theorem start_index_overflow_counterexample :
    strtol "2147483648" = (2147483648, "") ∧
    parse_args defaultOptions [] [Opt.n "2147483648"] =
      .done defaultOptions ["Warning: wrong value for '-n'."] ∧
    defaultOptions.start_at = 0 := by
  refine ⟨by decide, ?_, rfl⟩
  decide

/-- C9 (amended): the `-n` option is 1-based and validated against the
`int`-narrowed value: `strtol`'s `long` result is assigned into `int n`
(truncating to 32 bits, line 115); for a fully-consumed argument whose
narrowed value `n` is positive, the initial cursor index becomes `n - 1`
(applied through `set_path` at line 215, hence clamped into range); otherwise
— non-numeric input, trailing characters, or a narrowed value `n ≤ 0`, which
includes NUM ≤ 0 and overflowing values such as NUM = 2^31 — only a warning
is printed and the start index stays 0, so viewing begins at the first
image. -/
theorem start_index_one_based :
    (∀ (opts : Options) (warns : List String) (s : String) (rest : List Opt),
      (strtol s).2 = "" → 0 < longToInt (strtol s).1 →
      parse_args opts warns (Opt.n s :: rest) =
        parse_args { opts with start_at := (longToInt (strtol s).1 - 1).toNat }
          warns rest) ∧
    (∀ (opts : Options) (warns : List String) (s : String) (rest : List Opt),
      ((strtol s).2 ≠ "" ∨ longToInt (strtol s).1 ≤ 0) →
      parse_args opts warns (Opt.n s :: rest) =
        parse_args opts (warns ++ ["Warning: wrong value for '-n'."]) rest) ∧
    (∀ (nav : Navigator) (n : Nat), nav.paths.isEmpty = false →
      (imv_navigator_set_path nav n).cur_path = min n (nav.paths.length - 1) ∧
      (imv_navigator_set_path nav n).cur_path < nav.paths.length ∧
      (imv_navigator_set_path nav n).changed = true) := by
  refine ⟨?_, ?_, ?_⟩
  · intro opts warns s rest h1 h2
    simp only [parse_args]
    rw [if_neg]
    push_neg
    exact ⟨by rw [h1], h2⟩
  · intro opts warns s rest h
    simp only [parse_args]
    rw [if_pos h]
  · intro nav n hne
    have hpos : 0 < nav.paths.length := by
      cases hp : nav.paths with
      | nil => rw [hp] at hne; simp at hne
      | cons a l => simp [hp]
    unfold imv_navigator_set_path
    rw [if_neg (by rw [hne]; exact Bool.false_ne_true)]
    refine ⟨rfl, ?_, rfl⟩
    show min n (nav.paths.length - 1) < nav.paths.length
    omega

/-- Witness for C9: `-n 3` starts at index 2; `set_path 5` on a two-element
list clamps to index 1. -/
theorem start_index_one_based_witness :
    parse_args defaultOptions [] [Opt.n "3"] =
      .done { defaultOptions with start_at := 2 } [] ∧
    (imv_navigator_set_path ⟨["a", "b"], 0, false⟩ 5).cur_path = 1 := by
  constructor
  · rw [start_index_one_based.1 defaultOptions [] "3" [] (by decide) (by decide)]
    rfl
  · rw [(start_index_one_based.2.2 ⟨["a", "b"], 0, false⟩ 5 (by decide)).1]
    decide

/-- Counterexample to C4 as stated: at a concrete state, the `l` handler is
not `move(+50, 0)` and the `h` handler is not `move(-50, 0)`; the deltas are
the other way around (`main.c` lines 243-244). -/
theorem pan_direction_counterexample :
    ¬((handleKey ⟨imv_init_navigator, imv_init_viewport 1280 720, imv_init_image,
          false⟩ Key.l).view
        = imv_viewport_move (imv_init_viewport 1280 720) 50 0
      ∧ (handleKey ⟨imv_init_navigator, imv_init_viewport 1280 720, imv_init_image,
          false⟩ Key.h).view
        = imv_viewport_move (imv_init_viewport 1280 720) (-50) 0) := by
  intro h
  have hx := congrArg Viewport.x h.1
  simp only [handleKey, imv_viewport_move, imv_init_viewport] at hx
  norm_num at hx

/-- C4 (amended): the `l` key (labelled pan right) calls `move(-50, 0)`,
moving the content left, and symmetrically `h` calls `move(+50, 0)`; `move`
adds its arguments to the offset directly and raises the redraw flag. -/
theorem pan_keys_swap :
    ∀ (s : LoopState) (view : Viewport) (dx dy : ℤ),
      (handleKey s Key.l).view = imv_viewport_move s.view (-50) 0 ∧
      (handleKey s Key.h).view = imv_viewport_move s.view 50 0 ∧
      (imv_viewport_move view dx dy).x = view.x + dx ∧
      (imv_viewport_move view dx dy).y = view.y + dy ∧
      (imv_viewport_move view dx dy).redraw = true :=
  fun s view dx dy => ⟨rfl, rfl, rfl, rfl, rfl⟩

/-- C5: the renderer presents at most one frame per control-loop iteration,
and only when the redraw flag is set; painting clears the flag, and an
iteration that finds the flag unset paints nothing and leaves the viewport
unchanged. -/
theorem render_gated_by_redraw :
    ∀ (view : Viewport),
      (renderStep view).2 ≤ 1 ∧
      ((renderStep view).2 = 1 ↔ view.redraw = true) ∧
      (view.redraw = true → (renderStep view).1 = { view with redraw := false }) ∧
      (view.redraw = false → renderStep view = (view, 0)) ∧
      (∀ (env : Env) (opts : Options) (nav : Navigator) (img : Image) (last : ℚ)
          (t1 t2 : Nat) (out : IterOut),
        loopTail env opts nav view img last t1 t2 = .ok out → out.presents ≤ 1) := by
  have hr : ∀ v : Viewport, (renderStep v).2 ≤ 1 := by
    intro v
    unfold renderStep
    split <;> simp
  intro view
  refine ⟨hr view, ?_, ?_, ?_, ?_⟩
  · cases hv : view.redraw <;> simp [renderStep, hv]
  · intro h
    simp [renderStep, h]
  · intro h
    simp [renderStep, h]
  · intro env opts nav img last t1 t2 out h
    unfold loopTail at h
    split at h
    · exact absurd h (by simp)
    · simp only [Except.ok.injEq] at h
      rw [← h]
      exact hr _

/-- Witness for C5: with the flag raised one frame is presented and the flag
comes back cleared; with it cleared nothing is painted. -/
theorem render_gated_by_redraw_witness :
    (renderStep (imv_init_viewport 1280 720)).1
      = { imv_init_viewport 1280 720 with redraw := false } ∧
    renderStep { imv_init_viewport 1280 720 with redraw := false }
      = ({ imv_init_viewport 1280 720 with redraw := false }, 0) := by
  refine ⟨(render_gated_by_redraw (imv_init_viewport 1280 720)).2.2.1 rfl, ?_⟩
  exact (render_gated_by_redraw { imv_init_viewport 1280 720 with
    redraw := false }).2.2.2.1 rfl

/-- C6: on each control-loop iteration, `imv_image_play` is invoked if and
only if the viewport's `playing` flag is set (the drain phase never changes
that flag), and the `dt` handed to it is the measured wall-clock delta — the
first `SDL_GetTicks` sample of this iteration minus the `last_time` recorded
when playback last advanced — in a single call, however many frame durations
it spans; `last_time` is refreshed exactly when play is invoked. -/
theorem play_invoked_iff_playing :
    ∀ (env : Env) (opts : Options) (nav : Navigator) (view : Viewport) (img : Image)
      (last : ℚ) (t1 t2 : Nat) (out : IterOut),
      loopTail env opts nav view img last t1 t2 = .ok out →
        (out.playCall.isSome = true ↔ view.playing = true) ∧
        (view.playing = true →
          out.playCall = some ((t1 : ℚ) / 1000 - last)
            ∧ out.last_time = (t2 : ℚ) / 1000) ∧
        (view.playing = false → out.playCall = none ∧ out.last_time = last) := by
  intro env opts nav view img last t1 t2 out h
  unfold loopTail at h
  split at h
  · exact absurd h (by simp)
  next nav1 view1 img1 heq =>
    have hv1 : view1.playing = view.playing :=
      drain_preserves_playing env opts nav view img nav1 view1 img1 heq
    simp only [Except.ok.injEq] at h
    rw [← h]
    cases hp : view.playing with
    | true =>
      rw [hp] at hv1
      simp [playStep, hv1]
    | false =>
      rw [hp] at hv1
      simp [playStep, hv1]

/-- Witness for C6: a quiet iteration (no pending change) with `playing` set,
`last_time = 0` and tick samples 1000 and 2000 invokes play with `dt = 1`
second and re-records `last_time = 2`. -/
theorem play_invoked_iff_playing_witness :
    (match loopTail ⟨fun _ => none⟩ defaultOptions ⟨["x"], 0, false⟩
        (imv_init_viewport 1280 720) imv_init_image 0 1000 2000 with
     | .ok out => out.playCall = some 1 ∧ out.last_time = 2
     | .error _ => False) := by
  have hdr : drainChanges ⟨fun _ => none⟩ defaultOptions ⟨["x"], 0, false⟩
      (imv_init_viewport 1280 720) imv_init_image
      = .ok (⟨["x"], 0, false⟩, imv_init_viewport 1280 720, imv_init_image) := by
    rw [drainChanges_eq]
    rfl
  cases hl : loopTail ⟨fun _ => none⟩ defaultOptions ⟨["x"], 0, false⟩
      (imv_init_viewport 1280 720) imv_init_image 0 1000 2000 with
  | error e =>
      unfold loopTail at hl
      rw [hdr] at hl
      simp at hl
  | ok out =>
      have hs := (play_invoked_iff_playing ⟨fun _ => none⟩ defaultOptions
        ⟨["x"], 0, false⟩ (imv_init_viewport 1280 720) imv_init_image
        0 1000 2000 out hl).2.1 rfl
      show out.playCall = some 1 ∧ out.last_time = 2
      rw [hs.1, hs.2]
      norm_num

/-- C8: for every navigator change processed by the drain loop with a current
path, the window title is first set to the `[LOADING]` state naming that
path; on a successful load a `WxH` title follows it and the viewport is
re-fitted to the window (`scale_to_window`, so the scale becomes
`min(win_w/img_w, win_h/img_h)` when `-a` is not in force, with the redraw
flag raised); on a failed load no further title is set, so the title remains
in the loading state. -/
theorem title_reflects_load_state :
    ∀ (env : Env) (opts : Options) (nav1 : Navigator) (view : Viewport)
      (img : Image) (p : String),
      imv_navigator_get_current_path nav1 = some p →
      (env.decode p = none →
        ∃ st, drainStep env opts nav1 view img = .ok (st, false) ∧
          st.2.1.titles = view.titles
            ++ [loadingTitle (nav1.cur_path + 1) nav1.paths.length p]) ∧
      (∀ fr frs, env.decode p = some (fr, frs) →
        ∃ st, drainStep env opts nav1 view img = .ok (st, true) ∧
          st.2.1.titles = view.titles
            ++ [loadingTitle (nav1.cur_path + 1) nav1.paths.length p,
                sizeTitle (nav1.cur_path + 1) nav1.paths.length fr.width fr.height p] ∧
          st.2.1.redraw = true ∧
          (opts.actual = false →
            st.2.1.scale = min ((view.width : ℚ) / (fr.width : ℚ))
              ((view.height : ℚ) / (fr.height : ℚ)))) := by
  intro env opts nav1 view img p hc
  constructor
  · intro hd
    have hload : imv_image_load env img p = (img, false) := by
      simp [imv_image_load, hd]
    exact ⟨_,
      by unfold drainStep; rw [hc]; simp only [hload, Bool.false_eq_true, if_false]; rfl,
      by cases ha : opts.actual <;>
          simp [ha, imv_viewport_scale_to_actual, imv_viewport_center,
            imv_viewport_set_title]⟩
  · intro fr frs hd
    have hload : imv_image_load env img p =
        ({ frames := fr :: frs, frame_index := 0, frame_time_accum := 0,
           width := fr.width, height := fr.height, changed := true }, true) := by
      simp [imv_image_load, hd]
    exact ⟨_,
      by unfold drainStep; rw [hc]; simp only [hload, if_true]; rfl,
      by cases ha : opts.actual <;>
          simp [ha, imv_viewport_scale_to_actual, imv_viewport_scale_to_window,
            imv_viewport_center, imv_viewport_set_title],
      by cases ha : opts.actual <;>
          simp [ha, imv_viewport_scale_to_actual, imv_viewport_scale_to_window,
            imv_viewport_center, imv_viewport_set_title],
      by intro ha
         simp [ha, imv_viewport_scale_to_window, imv_viewport_center,
           imv_viewport_set_title]⟩

/-- Witness for C8: processing the path `"B"` under `envAB` sets the loading
title and then the `2000x1000` size title. -/
theorem title_reflects_load_state_witness :
    (match drainStep envAB defaultOptions ⟨["B"], 0, false⟩
        (imv_init_viewport 1280 720) imv_init_image with
     | .ok (st, b) => b = true ∧
        st.2.1.titles = [loadingTitle 1 1 "B", sizeTitle 1 1 2000 1000 "B"]
     | .error _ => False) := by
  obtain ⟨st, heq, hti, hred, hsc⟩ :=
    (title_reflects_load_state envAB defaultOptions ⟨["B"], 0, false⟩
      (imv_init_viewport 1280 720) imv_init_image "B" rfl).2 ⟨2000, 1000, 1⟩ [] rfl
  rw [heq]
  exact ⟨rfl, by rw [hti]; rfl⟩

/-- A string of length zero is the empty string. -/
theorem string_length_zero {s : String} (h : s.length = 0) : s = "" := by
  cases s with
  | mk data =>
    cases data with
    | nil => rfl
    | cons c cs => simp [String.length] at h

/-- The string `"-"` is never of the form `path ++ "/" ++ s`. -/
theorem dash_not_extension (path s : String) : "-" ≠ path ++ "/" ++ s := by
  intro h
  have hlen := congrArg String.length h
  rw [String.length_append, String.length_append] at hlen
  simp only [show ("-" : String).length = 1 from rfl,
    show ("/" : String).length = 1 from rfl] at hlen
  have hp : path.length = 0 := by omega
  have hs : s.length = 0 := by omega
  rw [string_length_zero hp, string_length_zero hs] at h
  exact absurd h (by decide)

/-- Adding a path via `add_path` only ever adds that path. -/
theorem mem_add_path {nav : Navigator} {p q : String}
    (h : q ∈ (imv_navigator_add_path nav p).paths) : q ∈ nav.paths ∨ q = p := by
  unfold imv_navigator_add_path at h
  split at h
  · exact Or.inl h
  · split at h
    · simp at h
      exact Or.inr h
    · simp at h
      exact h

mutual
/-- The recursive traversal only adds the start path itself or paths below
it (of the form `path ++ "/" ++ s`). -/
theorem mem_addPathRecNode {q : String} : ∀ (nav : Navigator) (path : String)
    (node : FS), q ∈ (addPathRecNode nav path node).paths →
      q ∈ nav.paths ∨ q = path ∨ ∃ s, q = path ++ "/" ++ s
  | nav, path, .file, h => by
      rcases @mem_add_path nav path q h with h1 | h1
      · exact Or.inl h1
      · exact Or.inr (Or.inl h1)
  | nav, path, .skipped, h => Or.inl h
  | nav, path, .dir entries, h => by
      rcases mem_addPathRecEntries nav path entries h with h1 | h1
      · exact Or.inl h1
      · exact Or.inr (Or.inr h1)

/-- Directory traversal only adds paths strictly below `path`. -/
theorem mem_addPathRecEntries {q : String} : ∀ (nav : Navigator) (path : String)
    (entries : List (String × FS)),
    q ∈ (addPathRecEntries nav path entries).paths →
      q ∈ nav.paths ∨ ∃ s, q = path ++ "/" ++ s
  | nav, path, [], h => Or.inl h
  | nav, path, (name, node) :: rest, h => by
      rcases mem_addPathRecEntries (addPathRecNode nav (path ++ "/" ++ name) node)
        path rest h with h1 | h1
      · rcases mem_addPathRecNode nav (path ++ "/" ++ name) node h1
          with h2 | h2 | ⟨s, h2⟩
        · exact Or.inl h2
        · exact Or.inr ⟨name, h2⟩
        · exact Or.inr ⟨name ++ "/" ++ s, by rw [h2]; simp [String.append_assoc]⟩
      · exact Or.inr h1
end

/-- One argument-loop step keeps stdin mode on once set. -/
theorem collectArg_stdin_mono (fs : String → FS) (st : Options × Navigator)
    (arg : String) (h : st.1.stdinMode = true) :
    (collectArg fs st arg).1.stdinMode = true := by
  unfold collectArg
  split
  · rfl
  · split <;> exact h

/-- The argument loop keeps stdin mode on once set. -/
theorem collectArgs_stdin_mono (fs : String → FS) : ∀ (args : List String)
    (st : Options × Navigator), st.1.stdinMode = true →
    (collectArgs fs st args).1.stdinMode = true
  | [], _, h => h
  | a :: rest, st, h =>
      collectArgs_stdin_mono fs rest _ (collectArg_stdin_mono fs st a h)

/-- An argument `"-"` anywhere in the list turns stdin mode on. -/
theorem collectArgs_dash_stdin (fs : String → FS) : ∀ (args : List String)
    (st : Options × Navigator), "-" ∈ args →
    (collectArgs fs st args).1.stdinMode = true
  | a :: rest, st, h => by
      rcases List.mem_cons.mp h with h1 | h1
      · subst h1
        exact collectArgs_stdin_mono fs rest _ (by unfold collectArg; rw [if_pos rfl])
      · exact collectArgs_dash_stdin fs rest _ h1

/-- One argument-loop step never adds `"-"` to the path list: the `"-"`
argument is skipped, other arguments are themselves not `"-"`, and recursive
traversal only adds them or longer paths below them. -/
theorem collectArg_no_dash (fs : String → FS) (st : Options × Navigator)
    (arg : String) (h : "-" ∉ st.2.paths) :
    "-" ∉ (collectArg fs st arg).2.paths := by
  unfold collectArg
  split
  next harg => exact h
  next harg =>
    split
    · intro hmem
      unfold imv_navigator_add_path_recursive at hmem
      rcases mem_addPathRecNode st.2 arg (fs arg) hmem with h1 | h1 | ⟨s2, h1⟩
      · exact h h1
      · exact harg h1.symm
      · exact dash_not_extension arg s2 h1
    · intro hmem
      rcases mem_add_path hmem with h1 | h1
      · exact h h1
      · exact harg h1.symm

/-- The argument loop never adds `"-"` to the path list. -/
theorem collectArgs_no_dash (fs : String → FS) : ∀ (args : List String)
    (st : Options × Navigator), "-" ∉ st.2.paths →
    "-" ∉ (collectArgs fs st args).2.paths
  | [], _, h => h
  | a :: rest, st, h =>
      collectArgs_no_dash fs rest _ (collectArg_no_dash fs st a h)

/-- One stdin chunk holding a full line `l` plus its newline: the newline is
stripped, the line is skipped when empty and added otherwise. -/
theorem processChunk_line (fs : String → FS) (rec : Bool) (nav : Navigator)
    (l : String) :
    processChunk fs rec nav (l ++ "
") =
      if 0 < l.length then
        (if rec = true then imv_navigator_add_path_recursive fs nav l
         else imv_navigator_add_path nav l)
      else nav := by
  unfold processChunk
  have h1 : (l ++ "
").data.getLast? = some '
' := by
    rw [String.data_append]
    show (l.data ++ ['
']).getLast? = some '
'
    simp
  have h2 : String.mk (l ++ "
").data.dropLast = l := by
    rw [String.data_append]
    show String.mk (l.data ++ ['
']).dropLast = l
    rw [List.dropLast_concat]
  simp only [h1, if_pos rfl, h2]
  simp

/-- C10: a command-line argument that is exactly `"-"` enables reading paths
from stdin and is never itself added to the navigator's path list, whatever
the rest of the argument list holds; stdin is then read one line per chunk,
with the trailing newline stripped and empty lines skipped. -/
theorem dash_reads_stdin :
    (∀ (fs : String → FS) (opts : Options) (nav : Navigator) (args : List String),
      "-" ∈ args → (collectArgs fs (opts, nav) args).1.stdinMode = true) ∧
    (∀ (fs : String → FS) (opts : Options) (nav : Navigator) (args : List String),
      "-" ∉ nav.paths → "-" ∉ (collectArgs fs (opts, nav) args).2.paths) ∧
    (∀ (fs : String → FS) (rec : Bool) (nav : Navigator) (l : String),
      processChunk fs rec nav (l ++ "
") =
        if 0 < l.length then
          (if rec = true then imv_navigator_add_path_recursive fs nav l
           else imv_navigator_add_path nav l)
        else nav) :=
  ⟨fun fs opts nav args h => collectArgs_dash_stdin fs args (opts, nav) h,
   fun fs opts nav args h => collectArgs_no_dash fs args (opts, nav) h,
   processChunk_line⟩

/-- Witness for C10: `["-"]` turns stdin mode on; `["-", "a.png"]` never adds
`"-"`; the chunk `"b.png\n"` adds `b.png`; the chunk `"\n"` adds nothing. -/
theorem dash_reads_stdin_witness :
    (collectArgs (fun _ => FS.file) (defaultOptions, imv_init_navigator)
      ["-"]).1.stdinMode = true ∧
    "-" ∉ (collectArgs (fun _ => FS.file) (defaultOptions, imv_init_navigator)
      ["-", "a.png"]).2.paths ∧
    processChunk (fun _ => FS.file) false imv_init_navigator ("b.png" ++ "
") =
      imv_navigator_add_path imv_init_navigator "b.png" ∧
    processChunk (fun _ => FS.file) false imv_init_navigator ("" ++ "
") =
      imv_init_navigator := by
  refine ⟨dash_reads_stdin.1 (fun _ => FS.file) defaultOptions imv_init_navigator
      ["-"] (by decide),
    dash_reads_stdin.2.1 (fun _ => FS.file) defaultOptions imv_init_navigator
      ["-", "a.png"] (by decide), ?_, ?_⟩
  · rw [dash_reads_stdin.2.2 (fun _ => FS.file) false imv_init_navigator "b.png"]
    rfl
  · rw [dash_reads_stdin.2.2 (fun _ => FS.file) false imv_init_navigator ""]
    rfl

end Imv
